import Mathlib

/-
Shallow embedding of the real-time voice interaction client:
the voice state store (second half of src/frontend/src/stores/authStore.ts,
the useVoiceStore module) and the useVoiceChat hook (src/unnamed/part_005).

Modelling conventions:
- JavaScript string truthiness is modelled explicitly: a present-but-empty
  string is falsy, so the guards `if (response.error)`,
  `if (response.transcript)`, `if (response.ai_response?.text)` and
  `!!response.audio_response` test presence AND non-emptiness.
- Message ids (generated in the source from the wall clock and Math.random)
  carry no claim-relevant content and are omitted from the Turn record.
- Entity maps (TypeScript Record<string, any>) are modelled as association
  lists with string values; per the VoiceResponse type, ai_response carries
  extracted_info as a required object, and every JavaScript object
  (including the empty one) is truthy, so the source guard
  `if (response.ai_response.extracted_info)` always passes.
- Asynchronous audio playback side effects (Blob decoding, Audio.play, the
  isPlaying toggling inside playAudio) touch only the playing flag and are
  swallowed on failure in the source; they do not affect the conversation
  fields the claims are about and are not modelled inside the handler.
- The appointment_action field is only logged by the source handler and has
  no state effect.
-/

namespace VoiceChat

/-- Speaker role of a Turn (the source field is named `type`,
values `user` and `assistant`). -/
inductive Role where
  | user
  | assistant
deriving DecidableEq, Repr

/-- Entity map: TypeScript Record<string, any>, values modelled as strings. -/
abbrev EntityMap := List (String × String)

/-- The ai_response object of a VoiceResponse: text, intent and
extracted_info are all required fields in the source type. -/
structure AiResponse where
  text : String
  intent : String
  extracted_info : EntityMap
deriving DecidableEq, Repr

/-- Inbound wire message (interface VoiceResponse in src/unnamed/part_004).
Optional fields are Option; timestamp is required. The appointment_action
object is modelled by its message string, the only part the client surfaces. -/
structure VoiceResponse where
  transcript : Option String
  ai_response : Option AiResponse
  audio_response : Option String
  timestamp : String
  error : Option String
  appointment_action : Option String
deriving DecidableEq, Repr

/-- Connection status enum of the voice store. -/
inductive ConnectionStatus where
  | disconnected
  | connecting
  | connected
  | error
deriving DecidableEq, Repr

/-- Urgency level enum. -/
inductive UrgencyLevel where
  | low
  | medium
  | high
  | emergency
deriving DecidableEq, Repr

/-- One Turn of the message log (interface VoiceMessage, minus the
generated id, confidence, urgency and processing fields which the
voice store handler never sets). -/
structure VoiceMessage where
  type : Role
  content : String
  timestamp : String
  isAudio : Option Bool
  intent : Option String
  entities : Option EntityMap
deriving DecidableEq, Repr

/-- The voice store state (useVoiceStore): flags, message log and the
enhanced session fields. -/
structure VoiceStoreState where
  isRecording : Bool
  isProcessing : Bool
  isPlaying : Bool
  messages : List VoiceMessage
  currentTranscript : String
  connectionStatus : ConnectionStatus
  currentIntent : Option String
  extractedEntities : Option EntityMap
  suggestions : Option (List String)
  urgencyLevel : Option UrgencyLevel
  error : Option String
deriving DecidableEq, Repr

/-- JavaScript truthiness of a string: empty string is falsy. -/
def strTruthy (s : String) : Bool := s != ""

/-- JavaScript truthiness of an optional string: undefined and the empty
string are falsy. -/
def optStrTruthy : Option String → Bool
  | none => false
  | some s => strTruthy s

/-- The initial voice store state. -/
def emptySession : VoiceStoreState :=
  { isRecording := false
    isProcessing := false
    isPlaying := false
    messages := []
    currentTranscript := ""
    connectionStatus := ConnectionStatus.disconnected
    currentIntent := none
    extractedEntities := none
    suggestions := none
    urgencyLevel := none
    error := none }

/-- processVoiceResponse of the voice store. `now` models the wall clock
string new Date().toISOString() used to stamp the error Turn. Follows the
source line by line: setProcessing(false) first; then the error branch
(setError, append one assistant Turn, return); else clear the error,
append a user Turn when the transcript is truthy, and when ai_response.text
is truthy append the assistant Turn (isAudio from the truthiness of
audio_response) and update intent (when truthy) and entities. -/
def processVoiceResponse (now : String) (st : VoiceStoreState)
    (r : VoiceResponse) : VoiceStoreState :=
  let st0 := { st with isProcessing := false }
  if optStrTruthy r.error then
    { st0 with
      error := r.error
      messages := st0.messages ++
        [{ type := Role.assistant
           content := "I\x27m sorry, there was an error: " ++ r.error.getD ""
           timestamp := now
           isAudio := none
           intent := none
           entities := none }] }
  else
    let st1 := { st0 with error := none }
    let st2 : VoiceStoreState :=
      match r.transcript with
      | some t =>
        if strTruthy t then
          { st1 with messages := st1.messages ++
            [{ type := Role.user
               content := t
               timestamp := r.timestamp
               isAudio := some true
               intent := none
               entities := none }] }
        else st1
      | none => st1
    match r.ai_response with
    | some a =>
      if strTruthy a.text then
        let st3 : VoiceStoreState := { st2 with messages := st2.messages ++
          [{ type := Role.assistant
             content := a.text
             timestamp := r.timestamp
             isAudio := some (optStrTruthy r.audio_response)
             intent := some a.intent
             entities := some a.extracted_info }] }
        let st4 : VoiceStoreState :=
          if strTruthy a.intent then { st3 with currentIntent := some a.intent }
          else st3
        { st4 with extractedEntities := some a.extracted_info }
      else st2
    | none => st2

/-- clearMessages of the voice store: empties the log and clears
transcript, intent, entities and suggestions; nothing else is written. -/
def clearMessages (st : VoiceStoreState) : VoiceStoreState :=
  { st with
    messages := []
    currentTranscript := ""
    currentIntent := none
    extractedEntities := none
    suggestions := none }

/-- reset of the voice store: clears everything except connectionStatus,
which the source reset does not write. -/
def reset (st : VoiceStoreState) : VoiceStoreState :=
  { st with
    messages := []
    currentTranscript := ""
    currentIntent := none
    extractedEntities := none
    suggestions := none
    urgencyLevel := none
    error := none
    isRecording := false
    isProcessing := false
    isPlaying := false }

/-- An inbound socket event as seen by the handlers installed in connect():
a message whose JSON either decodes to a VoiceResponse or fails
(`message none` models the JSON.parse catch branch), a transport error
event, or a close event. -/
inductive InboundEvent where
  | message (decoded : Option VoiceResponse)
  | socketError
  | socketClose
deriving DecidableEq, Repr

/-- The socket handlers of connect() in the useVoiceChat hook:
ws.onmessage parses, forwards to processVoiceResponse and calls
setProcessing(false) (also in the parse-failure catch); ws.onerror sets
status error and clears processing; ws.onclose sets status disconnected
and clears processing. -/
def handleInbound (now : String) (st : VoiceStoreState) :
    InboundEvent → VoiceStoreState
  | InboundEvent.message (some r) =>
    let st1 := processVoiceResponse now st r
    { st1 with isProcessing := false }
  | InboundEvent.message none => { st with isProcessing := false }
  | InboundEvent.socketError =>
    { st with connectionStatus := ConnectionStatus.error, isProcessing := false }
  | InboundEvent.socketClose =>
    { st with connectionStatus := ConnectionStatus.disconnected, isProcessing := false }

/-- WebSocket readyState of the current socket (OPEN is named `opened`
because `open` is reserved in Lean). -/
inductive ReadyState where
  | connecting
  | opened
  | closing
  | closed
deriving DecidableEq, Repr

/-- Connection manager state of the useVoiceChat hook: the readyState of
websocketRef.current (none when the ref is null), the store status, and a
count of WebSocket constructions performed (each `new WebSocket(apiUrl)`
increments it: it counts transports opened). -/
structure ConnMgr where
  socket : Option ReadyState
  status : ConnectionStatus
  openedCount : Nat
deriving DecidableEq, Repr

/-- connect() of the useVoiceChat hook: returns unchanged only when
websocketRef.current exists with readyState === WebSocket.OPEN; otherwise
sets status to connecting, constructs a fresh WebSocket (openedCount
increments, a socket starting in readyState CONNECTING) and overwrites the
ref with it. -/
def connect (m : ConnMgr) : ConnMgr :=
  if m.socket = some ReadyState.opened then m
  else
    { socket := some ReadyState.connecting
      status := ConnectionStatus.connecting
      openedCount := m.openedCount + 1 }

/-- The ws.onopen handler: the socket reaches readyState OPEN and the
store status is set to connected. -/
def onOpen (m : ConnMgr) : ConnMgr :=
  { m with socket := some ReadyState.opened, status := ConnectionStatus.connected }

/-- Result of sendAudioToServer: either the guarded early return after the
console report that the WebSocket is not connected, or the payload handed
to ws.send. -/
inductive SendResult where
  | notConnected
  | sent (payload : String)
deriving DecidableEq, Repr

/-- sendAudioToServer of the useVoiceChat hook: when the ref is null or
its readyState is not OPEN, it logs the failure to the console, clears the
processing flag and returns without touching the message log; otherwise it
base64-encodes and sends the payload (the encode try/catch path also only
clears processing and is not claim-relevant). -/
def sendAudioToServer (socket : Option ReadyState) (st : VoiceStoreState)
    (audio : String) : SendResult × VoiceStoreState :=
  if socket = some ReadyState.opened then
    (SendResult.sent audio, st)
  else
    (SendResult.notConnected, { st with isProcessing := false })

/-- Outcome of the getUserMedia microphone request awaited by
startRecording. -/
inductive MicAccess where
  | granted
  | denied
deriving DecidableEq, Repr

/-- Recording-related state of the useVoiceChat hook: whether
mediaRecorderRef.current is set, how many capture sessions have been begun
(each successful getUserMedia plus MediaRecorder.start), and the store
recording and processing flags. -/
structure RecState where
  recorder : Bool
  captureCount : Nat
  isRecording : Bool
  isProcessing : Bool
deriving DecidableEq, Repr

/-- startRecording of the useVoiceChat hook: no guard on the recording
flag; on granted microphone access it creates a MediaRecorder, starts it
(a new capture session begins) and sets the recording flag; on denial the
catch branch only alerts and changes no state. -/
def startRecording (acc : MicAccess) (r : RecState) : RecState :=
  match acc with
  | MicAccess.granted =>
    { r with recorder := true, captureCount := r.captureCount + 1, isRecording := true }
  | MicAccess.denied => r

/-- stopRecording of the useVoiceChat hook: guarded on the recorder ref
and the recording flag; when both hold it stops the recorder, clears the
recording flag and sets processing. -/
def stopRecording (r : RecState) : RecState :=
  if r.recorder && r.isRecording then
    { r with isRecording := false, isProcessing := true }
  else r

/-- toggleRecording of the useVoiceChat hook: stop when recording,
otherwise start. -/
def toggleRecording (acc : MicAccess) (r : RecState) : RecState :=
  if r.isRecording then stopRecording r else startRecording acc r

/-- Claim C1: for every inbound event handled by the socket handlers (a
decoded response, a response carrying an error, a payload that fails to
decode, a transport error, or a close), the processing flag is false
immediately after the event is fully handled. -/
theorem c1_processing_false_after_inbound (now : String) (st : VoiceStoreState)
    (e : InboundEvent) : (handleInbound now st e).isProcessing = false := by
  cases e with
  | message d => cases d with
    | none => rfl
    | some r => rfl
  | socketError => rfl
  | socketClose => rfl

/-- A response whose error field is present but holds the empty string. -/
def rEmptyErr : VoiceResponse :=
  { transcript := none
    ai_response := none
    audio_response := none
    timestamp := "2024-01-01T10:00:00Z"
    error := some ""
    appointment_action := none }

/-- Claim C2 counterexample: on a response whose error field is present
but empty, the handler takes the non-error path (JavaScript truthiness):
the session error is cleared to none rather than set, and no Turn is
appended — contradicting the claim, which demands that every response with
the error field present gets the session error set and exactly one
assistant Turn appended. -/
theorem c2_counterexample :
    rEmptyErr.error.isSome = true ∧
    (processVoiceResponse "N" emptySession rEmptyErr).error = none ∧
    (processVoiceResponse "N" emptySession rEmptyErr).messages = [] := by
  decide

/-- Claim C2 (amended): for every inbound response whose error field is
present with non-empty text, handling sets the session error to it,
appends exactly one assistant Turn surfacing the error text, clears the
processing flag, and changes nothing else (no user Turn, no intent or
entity update, state otherwise untouched). -/
theorem c2_error_response (now : String) (st : VoiceStoreState)
    (r : VoiceResponse) (e : String) (he : r.error = some e) (hne : e ≠ "") :
    processVoiceResponse now st r =
      { st with
        isProcessing := false
        error := some e
        messages := st.messages ++
          [{ type := Role.assistant
             content := "I\x27m sorry, there was an error: " ++ e
             timestamp := now
             isAudio := none
             intent := none
             entities := none }] } := by
  have ht : optStrTruthy r.error = true := by
    simp [he, optStrTruthy, strTruthy, hne]
  unfold processVoiceResponse
  rw [ht]
  simp [he]

/-- A response carrying only a non-empty error. -/
def rErrDemo : VoiceResponse :=
  { transcript := none
    ai_response := none
    audio_response := none
    timestamp := "2024-01-01T10:00:01Z"
    error := some "speech unintelligible"
    appointment_action := none }

/-- Claim C2 witness: the amended theorem applied to a concrete response
carrying error text "speech unintelligible". -/
theorem c2_error_response_witness :
    rErrDemo.error = some "speech unintelligible" ∧
    ("speech unintelligible" : String) ≠ "" ∧
    processVoiceResponse "E1" emptySession rErrDemo =
      { emptySession with
        isProcessing := false
        error := some "speech unintelligible"
        messages := emptySession.messages ++
          [{ type := Role.assistant
             content := "I\x27m sorry, there was an error: " ++ "speech unintelligible"
             timestamp := "E1"
             isAudio := none
             intent := none
             entities := none }] } :=
  ⟨rfl, by decide,
   c2_error_response "E1" emptySession rErrDemo "speech unintelligible" rfl (by decide)⟩

/-- A response whose transcript field is present but empty, alongside an
ai_response with non-empty text. -/
def rBothEmptyT : VoiceResponse :=
  { transcript := some ""
    ai_response := some { text := "hi", intent := "greet", extracted_info := [] }
    audio_response := none
    timestamp := "2024-01-01T10:00:00Z"
    error := none
    appointment_action := none }

/-- Claim C3 counterexample: a response containing both a transcript and
an ai_response, where the transcript is the empty string, appends only
one Turn (the assistant Turn) — the empty transcript is falsy in
JavaScript and skipped, contradicting the claim that every response
containing both fields appends exactly two Turns. -/
theorem c3_counterexample :
    rBothEmptyT.transcript.isSome = true ∧
    rBothEmptyT.ai_response.isSome = true ∧
    rBothEmptyT.error = none ∧
    (processVoiceResponse "N" emptySession rBothEmptyT).messages.length = 1 := by
  decide

/-- Claim C3 (amended): for every inbound response without a truthy error
that contains a non-empty transcript and an ai_response with non-empty
text, handling appends exactly two Turns in order: first a user Turn with
the transcript text marked audio-origin, then an assistant Turn with the
ai_response text whose audio-origin flag equals the truthiness (presence
and non-emptiness) of audio_response, carrying the intent and entities. -/
theorem c3_two_turns (now : String) (st : VoiceStoreState) (r : VoiceResponse)
    (t : String) (a : AiResponse)
    (herr : optStrTruthy r.error = false)
    (ht : r.transcript = some t) (htne : t ≠ "")
    (ha : r.ai_response = some a) (hane : a.text ≠ "") :
    (processVoiceResponse now st r).messages =
      st.messages ++
        [{ type := Role.user, content := t, timestamp := r.timestamp,
           isAudio := some true, intent := none, entities := none },
         { type := Role.assistant, content := a.text, timestamp := r.timestamp,
           isAudio := some (optStrTruthy r.audio_response),
           intent := some a.intent, entities := some a.extracted_info }] := by
  have h1 : strTruthy t = true := by simp [strTruthy, htne]
  have h2 : strTruthy a.text = true := by simp [strTruthy, hane]
  unfold processVoiceResponse
  rw [herr]
  simp [ht, ha, h1, h2, apply_ite]

/-- The example exchange of the specification: a transcript plus an
ai_response with intent book_appointment and no entities. -/
def rScenario : VoiceResponse :=
  { transcript := some "book an appointment"
    ai_response := some
      { text := "Sure, with which doctor?"
        intent := "book_appointment"
        extracted_info := [] }
    audio_response := none
    timestamp := "2024-01-01T10:00:00Z"
    error := none
    appointment_action := none }

/-- Claim C3 witness: the amended theorem applied to the concrete
scenario exchange. -/
theorem c3_two_turns_witness :
    optStrTruthy rScenario.error = false ∧
    rScenario.transcript = some "book an appointment" ∧
    ("book an appointment" : String) ≠ "" ∧
    rScenario.ai_response = some
      { text := "Sure, with which doctor?"
        intent := "book_appointment"
        extracted_info := [] } ∧
    ("Sure, with which doctor?" : String) ≠ "" ∧
    (processVoiceResponse "N" emptySession rScenario).messages =
      emptySession.messages ++
        [{ type := Role.user, content := "book an appointment",
           timestamp := rScenario.timestamp,
           isAudio := some true, intent := none, entities := none },
         { type := Role.assistant, content := "Sure, with which doctor?",
           timestamp := rScenario.timestamp,
           isAudio := some (optStrTruthy rScenario.audio_response),
           intent := some "book_appointment", entities := some [] }] :=
  ⟨rfl, rfl, by decide, rfl, by decide,
   c3_two_turns "N" emptySession rScenario "book an appointment"
     ⟨"Sure, with which doctor?", "book_appointment", []⟩
     rfl rfl (by decide) rfl (by decide)⟩

/-- A session holding previously extracted entities, two keys. -/
def staleSession : VoiceStoreState :=
  { emptySession with
    extractedEntities := some [("patient_name", "Alice"), ("phone", "0123")] }

/-- A response carrying an extracted-entity set inside an ai_response
whose text is empty. -/
def rEmptyTextEntities : VoiceResponse :=
  { transcript := none
    ai_response := some
      { text := "", intent := "book", extracted_info := [("date", "2024-02-02")] }
    audio_response := none
    timestamp := "2024-01-01T10:00:00Z"
    error := none
    appointment_action := none }

/-- Claim C7 counterexample: a response that carries an extracted-entity
set but whose ai_response.text is empty leaves the prior entities in
place — the entity update is guarded by the truthiness of
ai_response.text, contradicting the claim that EVERY assistant response
carrying entities replaces the session entity set. -/
theorem c7_counterexample :
    rEmptyTextEntities.ai_response.map AiResponse.extracted_info
      = some [("date", "2024-02-02")] ∧
    rEmptyTextEntities.error = none ∧
    (processVoiceResponse "N" staleSession rEmptyTextEntities).extractedEntities
      = some [("patient_name", "Alice"), ("phone", "0123")] := by
  decide

/-- Claim C7 (amended): for every inbound response without a truthy error
whose ai_response has non-empty text, the extracted entities of the
session are overwritten wholesale with extracted_info of that
ai_response: after handling they equal exactly that set, so keys present
only in the prior set are gone (no field-level merge). -/
theorem c7_entities_replaced (now : String) (st : VoiceStoreState)
    (r : VoiceResponse) (a : AiResponse)
    (herr : optStrTruthy r.error = false)
    (ha : r.ai_response = some a) (hane : a.text ≠ "") :
    (processVoiceResponse now st r).extractedEntities = some a.extracted_info := by
  have h2 : strTruthy a.text = true := by simp [strTruthy, hane]
  unfold processVoiceResponse
  rw [herr]
  cases hts : r.transcript with
  | none => simp [ha, h2, apply_ite]
  | some t => by_cases htt : strTruthy t = true <;> simp [ha, h2, htt, apply_ite]

/-- A response whose ai_response has non-empty text and a one-key entity
set disjoint from the stale session entities. -/
def rBookedEntities : VoiceResponse :=
  { transcript := none
    ai_response := some
      { text := "Booked.", intent := "confirm", extracted_info := [("date", "2024-02-02")] }
    audio_response := none
    timestamp := "2024-01-01T10:00:02Z"
    error := none
    appointment_action := none }

/-- Claim C7 witness: the amended theorem applied to a concrete response;
the two prior keys patient_name and phone are gone and the entity set is
exactly the one carried by the response. -/
theorem c7_entities_replaced_witness :
    optStrTruthy rBookedEntities.error = false ∧
    rBookedEntities.ai_response = some
      { text := "Booked.", intent := "confirm", extracted_info := [("date", "2024-02-02")] } ∧
    ("Booked." : String) ≠ "" ∧
    (processVoiceResponse "N" staleSession rBookedEntities).extractedEntities
      = some [("date", "2024-02-02")] :=
  ⟨rfl, rfl, by decide,
   c7_entities_replaced "N" staleSession rBookedEntities
     ⟨"Booked.", "confirm", [("date", "2024-02-02")]⟩ rfl rfl (by decide)⟩

/-- Claim C9: for every inbound response without a truthy error whose
ai_response is present but has empty text, handling appends no assistant
Turn and leaves the current intent and the extracted entities unchanged
(presence of the ai_response object alone does not trigger the assistant
step; only a non-empty text does). -/
theorem c9_empty_ai_text (now : String) (st : VoiceStoreState)
    (r : VoiceResponse) (a : AiResponse)
    (herr : optStrTruthy r.error = false)
    (ha : r.ai_response = some a) (hempty : a.text = "") :
    ((processVoiceResponse now st r).messages.filter fun m =>
        decide (m.type = Role.assistant))
        = st.messages.filter (fun m => decide (m.type = Role.assistant)) ∧
    (processVoiceResponse now st r).currentIntent = st.currentIntent ∧
    (processVoiceResponse now st r).extractedEntities = st.extractedEntities := by
  have h2 : strTruthy a.text = false := by simp [strTruthy, hempty]
  unfold processVoiceResponse
  rw [herr]
  cases hts : r.transcript with
  | none => simp [ha, h2]
  | some t =>
    by_cases htt : strTruthy t = true <;>
      simp [ha, h2, htt, List.filter_append]

/-- A response with a transcript and an ai_response whose text is empty
but which carries an intent and entities. -/
def rEmptyAiText : VoiceResponse :=
  { transcript := some "hello"
    ai_response := some
      { text := "", intent := "greet", extracted_info := [("reason", "checkup")] }
    audio_response := none
    timestamp := "2024-01-01T10:00:03Z"
    error := none
    appointment_action := none }

/-- Claim C9 witness: the theorem applied to a concrete response whose
ai_response text is empty; no assistant Turn appears and intent and
entities stay at their initial values. -/
theorem c9_empty_ai_text_witness :
    optStrTruthy rEmptyAiText.error = false ∧
    rEmptyAiText.ai_response = some
      { text := "", intent := "greet", extracted_info := [("reason", "checkup")] } ∧
    (AiResponse.mk "" "greet" [("reason", "checkup")]).text = "" ∧
    (((processVoiceResponse "N" emptySession rEmptyAiText).messages.filter fun m =>
        decide (m.type = Role.assistant))
        = emptySession.messages.filter (fun m => decide (m.type = Role.assistant)) ∧
     (processVoiceResponse "N" emptySession rEmptyAiText).currentIntent
        = emptySession.currentIntent ∧
     (processVoiceResponse "N" emptySession rEmptyAiText).extractedEntities
        = emptySession.extractedEntities) :=
  ⟨rfl, rfl, rfl,
   c9_empty_ai_text "N" emptySession rEmptyAiText
     ⟨"", "greet", [("reason", "checkup")]⟩ rfl rfl rfl⟩

/-- Claim C8: clearMessages empties the Turn log and clears the current
transcript, intent, extracted entities and suggestions, while leaving the
connection status unchanged. -/
theorem c8_clear_messages (st : VoiceStoreState) :
    (clearMessages st).messages = [] ∧
    (clearMessages st).currentTranscript = "" ∧
    (clearMessages st).currentIntent = none ∧
    (clearMessages st).extractedEntities = none ∧
    (clearMessages st).suggestions = none ∧
    (clearMessages st).connectionStatus = st.connectionStatus := by
  simp [clearMessages]

/-- Claim C10: clearMessages leaves the urgency level and the session
error unchanged; reset clears those two fields along with the rest of the
session (log, transcript, intent, entities, suggestions, and the three
activity flags). -/
theorem c10_clear_preserves_reset_clears (st : VoiceStoreState) :
    (clearMessages st).urgencyLevel = st.urgencyLevel ∧
    (clearMessages st).error = st.error ∧
    (reset st).urgencyLevel = none ∧
    (reset st).error = none ∧
    (reset st).messages = [] ∧
    (reset st).currentTranscript = "" ∧
    (reset st).currentIntent = none ∧
    (reset st).extractedEntities = none ∧
    (reset st).suggestions = none ∧
    (reset st).isRecording = false ∧
    (reset st).isProcessing = false ∧
    (reset st).isPlaying = false := by
  simp [clearMessages, reset]

/-- A connection manager whose current socket is still in readyState
CONNECTING, having opened one transport. -/
def connectingMgr : ConnMgr :=
  { socket := some ReadyState.connecting
    status := ConnectionStatus.connecting
    openedCount := 1 }

/-- Claim C4 counterexample: calling connect() while the current socket is
still CONNECTING is NOT a no-op — the guard only checks readyState ===
OPEN, so a second transport is constructed (openedCount goes from 1 to 2)
and the reference is overwritten, contradicting the claim that connect()
is a no-op whenever the manager is already connecting or connected. -/
theorem c4_counterexample :
    connectingMgr.socket = some ReadyState.connecting ∧
    connect connectingMgr ≠ connectingMgr ∧
    (connect connectingMgr).openedCount = connectingMgr.openedCount + 1 := by
  decide

/-- Claim C4 (amended): connect() is a no-op exactly when the current
socket has readyState OPEN (connected); in every other state, including
CONNECTING, it sets status to connecting and constructs a fresh transport
(one more socket opened), and on successful open the status becomes
connected. -/
theorem c4_connect_behavior (m : ConnMgr) :
    (m.socket = some ReadyState.opened → connect m = m) ∧
    (m.socket ≠ some ReadyState.opened →
      (connect m).status = ConnectionStatus.connecting ∧
      (connect m).openedCount = m.openedCount + 1 ∧
      (onOpen (connect m)).status = ConnectionStatus.connected) := by
  constructor
  · intro h
    simp [connect, h]
  · intro h
    simp [connect, onOpen, h]

/-- A connection manager whose socket is OPEN. -/
def openedMgr : ConnMgr :=
  { socket := some ReadyState.opened
    status := ConnectionStatus.connected
    openedCount := 1 }

/-- A connection manager with no socket yet. -/
def freshMgr : ConnMgr :=
  { socket := none
    status := ConnectionStatus.disconnected
    openedCount := 0 }

/-- Claim C4 witness: the amended theorem applied to a manager with an
OPEN socket (no-op) and to a fresh manager (opens one transport, status
connecting, then connected on open). -/
theorem c4_connect_behavior_witness :
    connect openedMgr = openedMgr ∧
    (connect freshMgr).status = ConnectionStatus.connecting ∧
    (connect freshMgr).openedCount = freshMgr.openedCount + 1 ∧
    (onOpen (connect freshMgr)).status = ConnectionStatus.connected :=
  ⟨(c4_connect_behavior openedMgr).1 rfl,
   ((c4_connect_behavior freshMgr).2 (by decide)).1,
   ((c4_connect_behavior freshMgr).2 (by decide)).2.1,
   ((c4_connect_behavior freshMgr).2 (by decide)).2.2⟩

/-- A null websocket reference. -/
def noSocket : Option ReadyState := none

/-- Claim C5 counterexample: sending a recorded payload while not
connected returns the notConnected report (the console log) but appends
NO Turn to the message log — the log stays empty, contradicting the claim
that the failure is surfaced to the user as an assistant-role Turn
appended to the message log. -/
theorem c5_counterexample :
    (sendAudioToServer noSocket emptySession "QUJD").1 = SendResult.notConnected ∧
    (sendAudioToServer noSocket emptySession "QUJD").2.messages = [] := by
  decide

/-- Claim C5 (amended): for every send of a recorded audio payload
attempted while the connection is not open, the failure is reported as
notConnected (a console report) rather than sent, and the processing flag
is cleared; the session state is otherwise untouched — in particular no
Turn of any kind is appended to the message log. -/
theorem c5_send_not_connected (socket : Option ReadyState)
    (st : VoiceStoreState) (audio : String)
    (h : ¬ socket = some ReadyState.opened) :
    sendAudioToServer socket st audio =
      (SendResult.notConnected, { st with isProcessing := false }) := by
  simp [sendAudioToServer, h]

/-- A session already holding one user Turn. -/
def sessionWithTurn : VoiceStoreState :=
  { emptySession with
    messages := [{ type := Role.user, content := "hello", timestamp := "T0",
                   isAudio := some true, intent := none, entities := none }] }

/-- Claim C5 witness: the amended theorem applied with a null socket
reference and a session holding one Turn; the log keeps exactly that Turn
and only the processing flag changes. -/
theorem c5_send_not_connected_witness :
    ¬ noSocket = some ReadyState.opened ∧
    sendAudioToServer noSocket sessionWithTurn "QUJD" =
      (SendResult.notConnected, { sessionWithTurn with isProcessing := false }) :=
  ⟨by decide, c5_send_not_connected noSocket sessionWithTurn "QUJD" (by decide)⟩

/-- A recording state in the middle of an active capture. -/
def recordingState : RecState :=
  { recorder := true
    captureCount := 1
    isRecording := true
    isProcessing := false }

/-- Claim C6 counterexample: calling startRecording while the recording
flag is already true is NOT a no-op — the source has no guard on the
flag, so with microphone access granted a second capture session begins
(captureCount goes from 1 to 2), contradicting the claim that start()
while recording is idempotent. -/
theorem c6_counterexample :
    recordingState.isRecording = true ∧
    startRecording MicAccess.granted recordingState ≠ recordingState ∧
    (startRecording MicAccess.granted recordingState).captureCount
      = recordingState.captureCount + 1 := by
  decide

/-- Claim C6 (amended): stop() while the recording flag is false is a
no-op; start() is not guarded by the recording flag — calling it while
already recording, with microphone access granted, begins a second
capture session (the at-most-one-recording discipline is enforced only by
toggleRecording, which stops when recording). -/
theorem c6_recording_guards (r : RecState) :
    (r.isRecording = false → stopRecording r = r) ∧
    (r.isRecording = true →
      (startRecording MicAccess.granted r).captureCount = r.captureCount + 1 ∧
      (startRecording MicAccess.granted r).isRecording = true) := by
  constructor
  · intro h
    simp [stopRecording, h]
  · intro h
    simp [startRecording]

/-- A recording state with no active capture. -/
def idleRecState : RecState :=
  { recorder := false
    captureCount := 0
    isRecording := false
    isProcessing := false }

/-- Claim C6 witness: the amended theorem applied to an idle state (stop
is a no-op) and to an actively recording state (start begins a second
capture). -/
theorem c6_recording_guards_witness :
    stopRecording idleRecState = idleRecState ∧
    (startRecording MicAccess.granted recordingState).captureCount
      = recordingState.captureCount + 1 ∧
    (startRecording MicAccess.granted recordingState).isRecording = true :=
  ⟨(c6_recording_guards idleRecState).1 rfl,
   ((c6_recording_guards recordingState).2 rfl).1,
   ((c6_recording_guards recordingState).2 rfl).2⟩

end VoiceChat
